import Mathlib

/-!
Shallow embedding of `dodo_detector/KeypointObjectDetector.py`.

The external OpenCV/numpy collaborators (SIFT feature extraction, the
k-nearest-neighbour matcher, `cv2.findHomography`, `cv2.resize`,
`np.sqrt`) are out of scope of the specification; they are abstracted as
oracle functions bundled in structures, while everything the repository
itself computes (the ratio test, the correspondence-count threshold, the
counter updates, the template projection and rectangle extraction, the
size-rejection test, the detections map) is translated faithfully from
the source.  Machine floats are modelled as exact rationals.
-/

namespace DodoDetector

/-- A 2-D point (keypoint coordinate), as used by `kp[...].pt`. -/
abbrev Pt := ℚ × ℚ

/-- One descriptor row (a feature vector). -/
abbrev Desc := List ℚ

/-- A `cv2.DMatch`: query index, train index and a distance. -/
structure KMatch where
  queryIdx : ℕ
  trainIdx : ℕ
  distance : ℚ
deriving DecidableEq

/-- Lines 109-114 of the source: the Lowe ratio test.  For each element
`match` of the matcher's output, when it has exactly two entries `m, n`,
`m` is kept iff `m.distance < 0.7 * n.distance`. -/
def goodMatches : List (List KMatch) → List KMatch
  | [] => []
  | ms :: rest =>
    match ms with
    | [m, n] =>
      if m.distance < 7 / 10 * n.distance then m :: goodMatches rest
      else goodMatches rest
    | _ => goodMatches rest

/-- `eps = 1e-7` from `_rootsift` (line 64). -/
def eps : ℚ := 1 / 10 ^ 7

/-- The L1 step of `_rootsift` (line 67): each row of the descriptor
matrix is divided by its sum plus `eps`. -/
def rootsiftRowL1 (row : List ℚ) : List ℚ :=
  row.map (fun x => x / (row.sum + eps))

/-- Line 67 over the whole descriptor matrix. -/
def rootsiftL1 (descs : List Desc) : List Desc :=
  descs.map rootsiftRowL1

/-- `_rootsift` (lines 62-70): L1-normalize each row, then take the
element-wise square root (`np.sqrt` is an external numeric primitive,
passed in as `sqrtFn`).  Keypoints are returned unchanged. -/
def rootsift (sqrtFn : ℚ → ℚ) (kps : List Pt) (descs : List Desc) :
    List Pt × List Desc :=
  (kps, (rootsiftL1 descs).map (fun row => row.map sqrtFn))

/-- A raster image, reduced to the data the detector inspects:
`shape[0]` (height) and `shape[1]` (width). -/
structure RawImg where
  h : ℕ
  w : ℕ
deriving DecidableEq

/-- External collaborators used by `_load_features`. -/
structure LoadOracles where
  /-- `cv2.resize(img, (0, 0), fx=0.3, fy=0.3)` (line 88). -/
  resize03 : RawImg → RawImg
  /-- `self.detector.detectAndCompute(img, None)` (line 91); a missing
  descriptor matrix (`None` in Python) is modelled as `[]`. -/
  detectAndCompute : RawImg → List Pt × List Desc
  /-- `np.sqrt`. -/
  sqrtFn : ℚ → ℚ

/-- Lines 82-96 of `_load_features`, for a single image file: resize when
`img.shape[0] > 1000`, extract features, apply `_rootsift` when the
detector type is `RootSIFT` and at least one keypoint was found, and
store the `(image, keypoints, descriptors)` tuple. -/
def loadFeatureImg (O : LoadOracles) (detector_type : String) (img : RawImg) :
    RawImg × List Pt × List Desc :=
  let img := if img.h > 1000 then O.resize03 img else img
  let kd := O.detectAndCompute img
  if detector_type = "RootSIFT" ∧ kd.1.length > 0 then
    let kd := rootsift O.sqrtFn kd.1 kd.2
    (img, kd.1, kd.2)
  else (img, kd.1, kd.2)

/-- An entry of `os.listdir(database_path)`: a name, plus whether the
entry is a directory (information the source never consults). -/
structure DirEntry where
  name : String
  isDir : Bool
deriving DecidableEq

/-- Line 43 of `__init__`:
`[os.path.basename(d) for d in os.listdir(self.database_path) if d != 'IGNORE']`.
`os.listdir` yields bare entry names, on which `os.path.basename` is the
identity. -/
def initObjects (entries : List DirEntry) : List String :=
  (entries.filter (fun d => d.name ≠ "IGNORE")).map (fun d => d.name)

/-- `self.min_points` (line 24). -/
def min_points : ℕ := 200

/-- `self.min_object_height` (line 46). -/
def min_object_height : ℤ := 10

/-- `self.min_object_width` (line 47). -/
def min_object_width : ℤ := 10

/-- `self.min_object_area` (line 48). -/
def min_object_area : ℤ := min_object_height * min_object_width

/-- One stored reference feature tuple `(obj_img, kp, des)`: the image's
shape and the keypoint/descriptor lists.  A Python `None` descriptor
matrix is modelled as `[]` (the source guards both with
`des is not None and len(des) > 0`). -/
structure ImgFeature where
  h : ℕ
  w : ℕ
  kps : List Pt
  des : List Desc
deriving DecidableEq

/-- The scene triple `[frame, scene_kp, scene_des]` passed to
`_detect_object`; the raster frame itself is only drawn on, never
inspected, so it is omitted. -/
structure Scene where
  kps : List Pt
  des : List Desc
deriving DecidableEq

/-- External collaborators used by `_detect_object`:
`self.matcher.knnMatch(des, scene_des, k=2)` (the `k=2` budget is folded
into the oracle) and `cv2.findHomography(src, dst, cv2.RANSAC, 5.0)`,
which either fails (`None`, modelled `none`) or yields a projective map
`M`, modelled by the point transformation `cv2.perspectiveTransform`
applies with it. -/
structure Oracles where
  knnMatch : List Desc → List Desc → List (List KMatch)
  findHomography : List Pt → List Pt → Option (Pt → Pt)

/-- `np.int32` applied to a scalar: truncation toward zero. -/
def npInt32 (q : ℚ) : ℤ := Int.tdiv q.num q.den

/-- `_extract_rectangle` (lines 183-192): min/max of the x and y
coordinates of the four projected corners, returned as
`(min_x, min_y, max_x - min_x, max_y - min_y)`. -/
def extractRectangle (dst : List (ℤ × ℤ)) : ℤ × ℤ × ℤ × ℤ :=
  let p0 := dst.getD 0 (0, 0)
  let p1 := dst.getD 1 (0, 0)
  let p2 := dst.getD 2 (0, 0)
  let p3 := dst.getD 3 (0, 0)
  let min_y := min p0.2 (min p1.2 (min p2.2 p3.2))
  let max_y := max p0.2 (max p1.2 (max p2.2 p3.2))
  let min_x := min p0.1 (min p1.1 (min p2.1 p3.1))
  let max_x := max p0.1 (max p1.1 (max p2.1 p3.1))
  (min_x, min_y, max_x - min_x, max_y - min_y)

/-- Line 119: `src_pts = [kp[m.queryIdx].pt for m in good]`.  The matcher
contract guarantees in-range indices, so out-of-range lookups (an
`IndexError` in Python) are given the harmless default `(0, 0)`. -/
def srcPts (f : ImgFeature) (good : List KMatch) : List Pt :=
  good.map (fun m => f.kps.getD m.queryIdx ((0 : ℚ), (0 : ℚ)))

/-- Line 120: `dst_pts = [scene_kp[m.trainIdx].pt for m in good]`. -/
def dstPts (scene : Scene) (good : List KMatch) : List Pt :=
  good.map (fun m => scene.kps.getD m.trainIdx ((0 : ℚ), (0 : ℚ)))

/-- Lines 124-127: the template height/width pair, taken from
`obj_img.shape` when `coordinates is None` and from
`_, _, w, h = coordinates` otherwise. -/
def templateHW (f : ImgFeature) (coords : Option (ℚ × ℚ × ℚ × ℚ)) : ℚ × ℚ :=
  match coords with
  | none => ((f.h : ℚ), (f.w : ℚ))
  | some (_, _, w, h) => (h, w)

/-- Line 129: the template rectangle
`[[0, 0], [0, h - 1], [w - 1, h - 1], [w - 1, 0]]`. -/
def templatePts (h w : ℚ) : List Pt :=
  [(0, 0), (0, h - 1), (w - 1, h - 1), (w - 1, 0)]

/-- Line 130: `np.int32(cv2.perspectiveTransform(pts, M))` — project each
template corner through `M` and truncate each coordinate to an integer. -/
def projectPoly (M : Pt → Pt) (pts : List Pt) : List (ℤ × ℤ) :=
  pts.map (fun p => (npInt32 (M p).1, npInt32 (M p).2))

/-- Line 118: `self.object_counters[name] += 1`.  `__init__` guarantees
the key is present for every registered class name. -/
def bumpCounter (counters : String → ℕ) (name : String) : String → ℕ :=
  fun c => if c = name then counters c + 1 else counters c

/-- Outcome of `_detect_object` for one frame and one class:
`found` models `return dst, [x, y, w, h]`, `notFound` models
`return None, None`, and `err` models an uncaught OpenCV exception (the
source calls `cv2.perspectiveTransform(pts, M)` with `M = None` when
homography estimation fails, which raises `cv2.error`). -/
inductive DetectResult where
  | found (polygon : List (ℤ × ℤ)) (rect : ℤ × ℤ × ℤ × ℤ)
  | notFound
  | err
deriving DecidableEq

/-- `_detect_object` (lines 100-146), with the mutable
`self.object_counters` threaded explicitly.  The loop over the class's
reference images recurses on the list; the same counters are passed on
because the only mutation (line 118) happens in branches that leave the
loop (`return`, `break`, or the raised exception). -/
def detectObject (O : Oracles) (name : String) (scene : Scene)
    (coords : Option (ℚ × ℚ × ℚ × ℚ)) (counters : String → ℕ) :
    List ImgFeature → DetectResult × (String → ℕ)
  | [] => (.notFound, counters)
  | f :: rest =>
    if 0 < f.des.length ∧ 0 < scene.des.length then
      let good := goodMatches (O.knnMatch f.des scene.des)
      if good.length > min_points then
        let counters' := bumpCounter counters name
        match O.findHomography (srcPts f good) (dstPts scene good) with
        | none => (.err, counters')
        | some M =>
          let hw := templateHW f coords
          let dst := projectPoly M (templatePts hw.1 hw.2)
          let r := extractRectangle dst
          if r.2.2.1 < min_object_width ∨ r.2.2.2 < min_object_height ∨
              r.2.2.1 * r.2.2.2 < min_object_area then
            (.notFound, counters')
          else
            (.found dst r, counters')
      else detectObject O name scene coords counters rest
    else detectObject O name scene coords counters rest

/-- Python `s[0]` on a string: the one-character string made of the first
character (`from_image` line 168 applies it to a class name; class names
coming from `os.listdir` are never empty). -/
def pyFirst (s : String) : String := String.mk (s.data.take 1)

/-- A `(ymin, xmin, ymax, xmax)` bounding box. -/
abbrev Box := ℤ × ℤ × ℤ × ℤ

/-- Lines 170-173: insert a box into the `detected_objects` dict,
creating the key's list when absent (dict insertion order preserved). -/
def addDetection (m : List (String × List Box)) (k : String) (b : Box) :
    List (String × List Box) :=
  if m.any (fun p => p.1 = k) then
    m.map (fun p => if p.1 = k then (p.1, p.2 ++ [b]) else p)
  else m ++ [(k, [b])]

/-- The loop of `from_image` (lines 159-179) over the keys of
`self.object_features` (dict keys: the registered class names, unique).
`allObjects` is the key set of `self.object_counters`, which `__init__`
makes equal to the class list; line 179 reads
`self.object_counters[object_name]` and raises `KeyError` when
`object_name` is not among them, which aborts the call (the drawing
calls themselves are presentation only and cannot fail otherwise). -/
def fromImageLoop (O : Oracles) (scene : Scene)
    (feats : String → List ImgFeature) (allObjects : List String) :
    List String → (String → ℕ) → List (String × List Box) →
    (String → ℕ) × Except Unit (List (String × List Box))
  | [], cs, acc => (cs, .ok acc)
  | obj :: rest, cs, acc =>
    let r := detectObject O obj scene none cs (feats obj)
    match r.1 with
    | .err => (r.2, .error ())
    | .notFound => fromImageLoop O scene feats allObjects rest r.2 acc
    | .found _ rct =>
      let ymin := rct.2.1
      let xmin := rct.1
      let ymax := rct.2.1 + rct.2.2.2
      let xmax := rct.1 + rct.2.2.1
      let object_name := pyFirst obj
      let acc' := addDetection acc object_name (ymin, xmin, ymax, xmax)
      if object_name ∈ allObjects then
        fromImageLoop O scene feats allObjects rest r.2 acc'
      else (r.2, .error ())

/-- The detector's instance state: `self.current_frame`, `self.objects`,
`self.object_features` and `self.object_counters`. -/
structure DetectorState where
  current_frame : ℕ
  objects : List String
  object_features : String → List ImgFeature
  object_counters : String → ℕ

/-- `from_image` (lines 148-181).  Scene feature extraction (lines
152-155) is the external `detectAndCompute` plus `_rootsift`; its result
is the `scene` argument.  The updated instance state is returned even
when the call raises (`Except.error`, the uncaught `cv2.error` or
`KeyError`), because the Python mutations happen before the raise. -/
def fromImage (O : Oracles) (st : DetectorState) (scene : Scene) :
    DetectorState × Except Unit (List (String × List Box)) :=
  let r := fromImageLoop O scene st.object_features st.objects st.objects
    st.object_counters []
  (⟨st.current_frame + 1, st.objects, st.object_features, r.1⟩, r.2)

/-! ### Concrete instances used to exercise the embedding -/

/-- A matcher output element whose best distance (0) beats the ratio
test against the second-best distance (1). -/
def goodPair : List KMatch := [⟨0, 0, 0⟩, ⟨0, 0, 1⟩]

/-- An oracle pair: the matcher always returns 201 ratio-test-passing
neighbour pairs, homography estimation succeeds with the identity map. -/
def oracle201 : Oracles :=
  ⟨fun _ _ => List.replicate 201 goodPair, fun _ _ => some (fun p => p)⟩

/-- Like `oracle201`, but homography estimation fails
(`cv2.findHomography` returns `None`). -/
def oracleNoHom : Oracles :=
  ⟨fun _ _ => List.replicate 201 goodPair, fun _ _ => none⟩

/-- An oracle whose matcher returns no candidate pairs. -/
def oracleFew : Oracles := ⟨fun _ _ => [], fun _ _ => none⟩

/-- A 5×5 reference image with one keypoint/descriptor. -/
def featSmall : ImgFeature := ⟨5, 5, [(0, 0)], [[1]]⟩

/-- A 100×100 reference image with one keypoint/descriptor. -/
def featBig : ImgFeature := ⟨100, 100, [(0, 0)], [[1]]⟩

/-- A reference image whose feature extraction found no descriptors. -/
def featEmpty : ImgFeature := ⟨100, 100, [], []⟩

/-- A scene with one keypoint/descriptor. -/
def scene1 : Scene := ⟨[(0, 0)], [[1]]⟩

/-- A scene with no features at all. -/
def sceneEmpty : Scene := ⟨[], []⟩

/-- A detector over a single-class database `{"mug"}`, whose one
reference image is 100×100. -/
def stMug : DetectorState := ⟨0, ["mug"], fun _ => [featBig], fun _ => 0⟩

/-- A detector over `{"mug"}` whose reference image is 5×5. -/
def stMugSmall : DetectorState := ⟨0, ["mug"], fun _ => [featSmall], fun _ => 0⟩

/-- Reference features for a two-class database: `"mug"` has one 100×100
reference image, any other class has none. -/
def featsMugM : String → List ImgFeature :=
  fun c => if c = "mug" then [featBig] else []

/-- A detector over the two classes `"mug"` and `"m"` (only `"mug"` has
a reference image). -/
def stMugM : DetectorState := ⟨0, ["mug", "m"], featsMugM, fun _ => 0⟩

/-- A concrete stand-in for `cv2.resize(·, (0, 0), fx=0.3, fy=0.3)`. -/
def resize03impl : RawImg → RawImg := fun i => ⟨3 * i.h / 10, 3 * i.w / 10⟩

/-- Concrete load-time oracles. -/
def loadOracle : LoadOracles := ⟨resize03impl, fun _ => ([], []), id⟩

/-! ### Helper lemmas about `_detect_object` -/

lemma detectObject_cons_skip (O : Oracles) (name : String) (scene : Scene)
    (coords : Option (ℚ × ℚ × ℚ × ℚ)) (cs : String → ℕ) (f : ImgFeature)
    (rest : List ImgFeature)
    (h : (goodMatches (O.knnMatch f.des scene.des)).length ≤ min_points) :
    detectObject O name scene coords cs (f :: rest)
      = detectObject O name scene coords cs rest := by
  simp only [detectObject]
  split
  · rw [if_neg (by omega)]
  · rfl

lemma detectObject_cons_skip_empty (O : Oracles) (name : String) (scene : Scene)
    (coords : Option (ℚ × ℚ × ℚ × ℚ)) (cs : String → ℕ) (f : ImgFeature)
    (rest : List ImgFeature)
    (h : ¬ (0 < f.des.length ∧ 0 < scene.des.length)) :
    detectObject O name scene coords cs (f :: rest)
      = detectObject O name scene coords cs rest := by
  simp only [detectObject]
  rw [if_neg h]

lemma detectObject_cons_none (O : Oracles) (name : String) (scene : Scene)
    (coords : Option (ℚ × ℚ × ℚ × ℚ)) (cs : String → ℕ) (f : ImgFeature)
    (rest : List ImgFeature)
    (hne : 0 < f.des.length ∧ 0 < scene.des.length)
    (hgood : (goodMatches (O.knnMatch f.des scene.des)).length > min_points)
    (hfh : O.findHomography (srcPts f (goodMatches (O.knnMatch f.des scene.des)))
      (dstPts scene (goodMatches (O.knnMatch f.des scene.des))) = none) :
    detectObject O name scene coords cs (f :: rest)
      = (.err, bumpCounter cs name) := by
  simp only [detectObject]
  rw [if_pos hne, if_pos hgood, hfh]

lemma detectObject_cons_some (O : Oracles) (name : String) (scene : Scene)
    (coords : Option (ℚ × ℚ × ℚ × ℚ)) (cs : String → ℕ) (f : ImgFeature)
    (rest : List ImgFeature) (M : Pt → Pt)
    (hne : 0 < f.des.length ∧ 0 < scene.des.length)
    (hgood : (goodMatches (O.knnMatch f.des scene.des)).length > min_points)
    (hfh : O.findHomography (srcPts f (goodMatches (O.knnMatch f.des scene.des)))
      (dstPts scene (goodMatches (O.knnMatch f.des scene.des))) = some M) :
    detectObject O name scene coords cs (f :: rest)
      = (let dst := projectPoly M
          (templatePts (templateHW f coords).1 (templateHW f coords).2)
         let r := extractRectangle dst
         if r.2.2.1 < min_object_width ∨ r.2.2.2 < min_object_height ∨
             r.2.2.1 * r.2.2.2 < min_object_area then
           (.notFound, bumpCounter cs name)
         else (.found dst r, bumpCounter cs name)) := by
  simp only [detectObject]
  rw [if_pos hne, if_pos hgood, hfh]

lemma goodMatches_replicate (m n : KMatch) (h : m.distance < 7 / 10 * n.distance)
    (k : ℕ) : goodMatches (List.replicate k [m, n]) = List.replicate k m := by
  induction k with
  | zero => rfl
  | succ j ih => simp [List.replicate, goodMatches, h, ih]

lemma proj_id_poly (b : ℤ) (a : ℚ) (hab : a = (b : ℚ) + 1) :
    projectPoly (fun p => p) (templatePts a a) = [(0, 0), (0, b), (b, b), (b, 0)] := by
  subst hab
  have h1 : ((b : ℚ) + 1 - 1) = ((b : ℤ) : ℚ) := by ring
  have h2 : npInt32 ((b : ℤ) : ℚ) = b := by
    simp [npInt32, Rat.num_intCast, Rat.den_intCast]
  have h0 : npInt32 (0 : ℚ) = 0 := by simp [npInt32]
  simp only [templatePts, projectPoly, List.map, h1, h0, h2]

lemma extract_square (b : ℤ) (hb : (0 : ℤ) ≤ b) :
    extractRectangle [(0, 0), (0, b), (b, b), (b, 0)] = (0, 0, b, b) := by
  simp [extractRectangle, min_def, max_def]
  omega

lemma bumpCounter_self (cs : String → ℕ) (name : String) :
    bumpCounter cs name name = cs name + 1 := by simp [bumpCounter]

lemma bumpCounter_other (cs : String → ℕ) (name c : String) (h : c ≠ name) :
    bumpCounter cs name c = cs c := by simp [bumpCounter, h]

lemma detectObject_counters_cases (O : Oracles) (name : String) (scene : Scene)
    (coords : Option (ℚ × ℚ × ℚ × ℚ)) (cs : String → ℕ) (fs : List ImgFeature) :
    (detectObject O name scene coords cs fs).2 = cs ∨
      (detectObject O name scene coords cs fs).2 = bumpCounter cs name := by
  induction fs with
  | nil => left; rfl
  | cons f rest ih =>
    by_cases h1 : 0 < f.des.length ∧ 0 < scene.des.length
    · by_cases h2 : (goodMatches (O.knnMatch f.des scene.des)).length > min_points
      · cases hfh : O.findHomography
            (srcPts f (goodMatches (O.knnMatch f.des scene.des)))
            (dstPts scene (goodMatches (O.knnMatch f.des scene.des))) with
        | none =>
          right
          rw [detectObject_cons_none O name scene coords cs f rest h1 h2 hfh]
        | some M =>
          right
          rw [detectObject_cons_some O name scene coords cs f rest M h1 h2 hfh]
          dsimp only
          split <;> rfl
      · rw [detectObject_cons_skip O name scene coords cs f rest (by omega)]
        exact ih
    · rw [detectObject_cons_skip_empty O name scene coords cs f rest h1]
      exact ih

lemma detectObject_fst_indep (O : Oracles) (name : String) (scene : Scene)
    (coords : Option (ℚ × ℚ × ℚ × ℚ)) (cs cs' : String → ℕ)
    (fs : List ImgFeature) :
    (detectObject O name scene coords cs fs).1
      = (detectObject O name scene coords cs' fs).1 := by
  induction fs with
  | nil => rfl
  | cons f rest ih =>
    by_cases h1 : 0 < f.des.length ∧ 0 < scene.des.length
    · by_cases h2 : (goodMatches (O.knnMatch f.des scene.des)).length > min_points
      · cases hfh : O.findHomography
            (srcPts f (goodMatches (O.knnMatch f.des scene.des)))
            (dstPts scene (goodMatches (O.knnMatch f.des scene.des))) with
        | none =>
          rw [detectObject_cons_none O name scene coords cs f rest h1 h2 hfh,
            detectObject_cons_none O name scene coords cs' f rest h1 h2 hfh]
        | some M =>
          rw [detectObject_cons_some O name scene coords cs f rest M h1 h2 hfh,
            detectObject_cons_some O name scene coords cs' f rest M h1 h2 hfh]
          dsimp only
          split <;> rfl
      · rw [detectObject_cons_skip O name scene coords cs f rest (by omega),
          detectObject_cons_skip O name scene coords cs' f rest (by omega)]
        exact ih
    · rw [detectObject_cons_skip_empty O name scene coords cs f rest h1,
        detectObject_cons_skip_empty O name scene coords cs' f rest h1]
      exact ih

lemma detectObject_found_bump (O : Oracles) (name : String) (scene : Scene)
    (coords : Option (ℚ × ℚ × ℚ × ℚ)) (cs : String → ℕ) (fs : List ImgFeature)
    (p : List (ℤ × ℤ)) (r : ℤ × ℤ × ℤ × ℤ)
    (h : (detectObject O name scene coords cs fs).1 = .found p r) :
    (detectObject O name scene coords cs fs).2 = bumpCounter cs name := by
  induction fs with
  | nil => exact absurd h (by simp [detectObject])
  | cons f rest ih =>
    by_cases h1 : 0 < f.des.length ∧ 0 < scene.des.length
    · by_cases h2 : (goodMatches (O.knnMatch f.des scene.des)).length > min_points
      · cases hfh : O.findHomography
            (srcPts f (goodMatches (O.knnMatch f.des scene.des)))
            (dstPts scene (goodMatches (O.knnMatch f.des scene.des))) with
        | none =>
          rw [detectObject_cons_none O name scene coords cs f rest h1 h2 hfh]
        | some M =>
          rw [detectObject_cons_some O name scene coords cs f rest M h1 h2 hfh]
          dsimp only
          split <;> rfl
      · rw [detectObject_cons_skip O name scene coords cs f rest (by omega)] at h ⊢
        exact ih h
    · rw [detectObject_cons_skip_empty O name scene coords cs f rest h1] at h ⊢
      exact ih h

lemma detectObject_pass_bump (O : Oracles) (name : String) (scene : Scene)
    (coords : Option (ℚ × ℚ × ℚ × ℚ)) (cs : String → ℕ) (f : ImgFeature)
    (rest : List ImgFeature)
    (h1 : 0 < f.des.length) (h2 : 0 < scene.des.length)
    (h3 : (goodMatches (O.knnMatch f.des scene.des)).length > min_points) :
    (detectObject O name scene coords cs (f :: rest)).2
      = bumpCounter cs name := by
  cases hfh : O.findHomography
      (srcPts f (goodMatches (O.knnMatch f.des scene.des)))
      (dstPts scene (goodMatches (O.knnMatch f.des scene.des))) with
  | none =>
    rw [detectObject_cons_none O name scene coords cs f rest ⟨h1, h2⟩ h3 hfh]
  | some M =>
    rw [detectObject_cons_some O name scene coords cs f rest M ⟨h1, h2⟩ h3 hfh]
    dsimp only
    split <;> rfl

lemma detectObject_err_bump (O : Oracles) (name : String) (scene : Scene)
    (coords : Option (ℚ × ℚ × ℚ × ℚ)) (cs : String → ℕ) (fs : List ImgFeature)
    (h : (detectObject O name scene coords cs fs).1 = .err) :
    (detectObject O name scene coords cs fs).2 = bumpCounter cs name := by
  induction fs with
  | nil => exact absurd h (by simp [detectObject])
  | cons f rest ih =>
    by_cases h1 : 0 < f.des.length ∧ 0 < scene.des.length
    · by_cases h2 : (goodMatches (O.knnMatch f.des scene.des)).length > min_points
      · exact detectObject_pass_bump O name scene coords cs f rest h1.1 h1.2 h2
      · rw [detectObject_cons_skip O name scene coords cs f rest (by omega)] at h ⊢
        exact ih h
    · rw [detectObject_cons_skip_empty O name scene coords cs f rest h1] at h ⊢
      exact ih h

lemma good201 : goodMatches (List.replicate 201 goodPair)
    = List.replicate 201 (⟨0, 0, 0⟩ : KMatch) := by
  rw [show goodPair = [(⟨0, 0, 0⟩ : KMatch), ⟨0, 0, 1⟩] from rfl]
  exact goodMatches_replicate _ _ (by norm_num) 201

lemma detect_small (name : String) (cs : String → ℕ) :
    detectObject oracle201 name scene1 none cs [featSmall]
      = (.notFound, bumpCounter cs name) := by
  have hgood : (goodMatches (oracle201.knnMatch featSmall.des scene1.des)).length
      > min_points := by
    rw [show oracle201.knnMatch featSmall.des scene1.des
        = List.replicate 201 goodPair from rfl, good201]
    rw [List.length_replicate]
    norm_num [min_points]
  rw [detectObject_cons_some oracle201 name scene1 none cs featSmall [] (fun p => p)
    (by constructor <;> simp [featSmall, scene1]) hgood rfl]
  dsimp only
  rw [show templateHW featSmall none = (((5 : ℕ) : ℚ), ((5 : ℕ) : ℚ)) from rfl]
  rw [proj_id_poly 4 _ (by norm_num), extract_square 4 (by norm_num)]
  rw [if_pos (Or.inl (by norm_num [min_object_width]))]

lemma detect_big (name : String) (cs : String → ℕ) :
    detectObject oracle201 name scene1 none cs [featBig]
      = (.found [(0, 0), (0, 99), (99, 99), (99, 0)] (0, 0, 99, 99),
         bumpCounter cs name) := by
  have hgood : (goodMatches (oracle201.knnMatch featBig.des scene1.des)).length
      > min_points := by
    rw [show oracle201.knnMatch featBig.des scene1.des
        = List.replicate 201 goodPair from rfl, good201]
    rw [List.length_replicate]
    norm_num [min_points]
  rw [detectObject_cons_some oracle201 name scene1 none cs featBig [] (fun p => p)
    (by constructor <;> simp [featBig, scene1]) hgood rfl]
  dsimp only
  rw [show templateHW featBig none = (((100 : ℕ) : ℚ), ((100 : ℕ) : ℚ)) from rfl]
  rw [proj_id_poly 99 _ (by norm_num), extract_square 99 (by norm_num)]
  rw [if_neg (by norm_num [min_object_width, min_object_height, min_object_area])]

lemma detect_foldl_aux (O : Oracles) (name : String)
    (coords : Option (ℚ × ℚ × ℚ × ℚ)) (fs : List ImgFeature) :
    ∀ (scenes : List Scene) (counters : String → ℕ),
      (∀ s ∈ scenes, ∀ cs : String → ℕ, ∃ p r,
        (detectObject O name s coords cs fs).1 = .found p r) →
      (scenes.foldl (fun cs s => (detectObject O name s coords cs fs).2) counters)
          name = counters name + scenes.length := by
  intro scenes
  induction scenes with
  | nil => intro counters _; simp
  | cons s tl ih =>
    intro counters h
    have hstep : (detectObject O name s coords counters fs).2
        = bumpCounter counters name := by
      obtain ⟨p, r, hpr⟩ := h s (List.mem_cons_self s tl) counters
      exact detectObject_found_bump O name s coords counters fs p r hpr
    rw [List.foldl_cons, hstep,
      ih _ (fun s2 hs2 => h s2 (List.mem_cons_of_mem s hs2)), bumpCounter_self]
    simp [List.length_cons]
    omega

lemma detect_foldl (O : Oracles) (name : String)
    (coords : Option (ℚ × ℚ × ℚ × ℚ)) (fs : List ImgFeature)
    (counters : String → ℕ) (scenes : List Scene)
    (h : ∀ s ∈ scenes, ∃ p r,
      (detectObject O name s coords counters fs).1 = .found p r) :
    (scenes.foldl (fun cs s => (detectObject O name s coords cs fs).2) counters)
        name = counters name + scenes.length := by
  refine detect_foldl_aux O name coords fs scenes counters ?_
  intro s hs cs
  obtain ⟨p, r, hpr⟩ := h s hs
  exact ⟨p, r, (detectObject_fst_indep O name s coords cs counters fs).trans hpr⟩

lemma fromImageLoop_not_mem (O : Oracles) (scene : Scene)
    (feats : String → List ImgFeature) (allObjects : List String) (c : String) :
    ∀ (l : List String) (cs : String → ℕ) (acc : List (String × List Box)),
      c ∉ l → (fromImageLoop O scene feats allObjects l cs acc).1 c = cs c := by
  intro l
  induction l with
  | nil => intro cs acc h; rfl
  | cons obj rest ih =>
    intro cs acc h
    simp only [List.mem_cons, not_or] at h
    obtain ⟨hne, hrest⟩ := h
    have h2 : (detectObject O obj scene none cs (feats obj)).2 c = cs c := by
      rcases detectObject_counters_cases O obj scene none cs (feats obj) with hc | hc <;>
        rw [hc]
      exact bumpCounter_other cs obj c hne
    simp only [fromImageLoop]
    split
    · exact h2
    · rw [ih _ _ hrest, h2]
    · split
      · rw [ih _ _ hrest, h2]
      · exact h2

lemma fromImageLoop_le (O : Oracles) (scene : Scene)
    (feats : String → List ImgFeature) (allObjects : List String) (c : String) :
    ∀ (l : List String) (cs : String → ℕ) (acc : List (String × List Box)),
      l.Nodup →
      cs c ≤ (fromImageLoop O scene feats allObjects l cs acc).1 c ∧
      (fromImageLoop O scene feats allObjects l cs acc).1 c ≤ cs c + 1 := by
  intro l
  induction l with
  | nil => intro cs acc _; exact ⟨le_rfl, by simp [fromImageLoop]⟩
  | cons obj rest ih =>
    intro cs acc hnd
    rw [List.nodup_cons] at hnd
    obtain ⟨hobj, hrest⟩ := hnd
    by_cases hco : c = obj
    · subst hco
      have hbnd : cs c ≤ (detectObject O c scene none cs (feats c)).2 c ∧
          (detectObject O c scene none cs (feats c)).2 c ≤ cs c + 1 := by
        rcases detectObject_counters_cases O c scene none cs (feats c) with hc | hc
        · rw [hc]; exact ⟨le_rfl, by omega⟩
        · rw [hc, bumpCounter_self]; exact ⟨by omega, le_rfl⟩
      simp only [fromImageLoop]
      split
      · exact hbnd
      · rw [fromImageLoop_not_mem O scene feats allObjects c rest _ _ hobj]
        exact hbnd
      · split
        · rw [fromImageLoop_not_mem O scene feats allObjects c rest _ _ hobj]
          exact hbnd
        · exact hbnd
    · have heq : (detectObject O obj scene none cs (feats obj)).2 c = cs c := by
        rcases detectObject_counters_cases O obj scene none cs (feats obj) with hc | hc <;>
          rw [hc]
        exact bumpCounter_other cs obj c hco
      simp only [fromImageLoop]
      split
      · dsimp only; rw [heq]; exact ⟨le_rfl, by omega⟩
      · rw [← heq]
        exact ih _ _ hrest
      · split
        · rw [← heq]
          exact ih _ _ hrest
        · dsimp only; rw [heq]; exact ⟨le_rfl, by omega⟩

lemma sum_map_div (l : List ℚ) (c : ℚ) :
    (l.map (fun x => x / c)).sum = l.sum / c := by
  induction l with
  | nil => simp
  | cons a t ih => simp [ih, add_div]

/-- C5: a candidate pair `(best, second_best)` is accepted iff
`distance(best) < 0.7 * distance(second_best)` (strict); a best distance
of `0.69 * d` against a second-best of `d > 0` is accepted, `0.71 * d` is
rejected; and a query descriptor with fewer than 2 retrieved neighbours
is skipped, never accepted. -/
theorem C5_ratio_test (m n : KMatch) (rest : List (List KMatch)) (d : ℚ)
    (hd : 0 < d) (ms : List KMatch) (hlt : ms.length < 2) :
    (m ∈ goodMatches [[m, n]] ↔ m.distance < 7 / 10 * n.distance) ∧
    ((⟨0, 0, 69 / 100 * d⟩ : KMatch) ∈
      goodMatches [[⟨0, 0, 69 / 100 * d⟩, ⟨1, 1, d⟩]]) ∧
    ((⟨0, 0, 71 / 100 * d⟩ : KMatch) ∉
      goodMatches [[⟨0, 0, 71 / 100 * d⟩, ⟨1, 1, d⟩]]) ∧
    goodMatches (ms :: rest) = goodMatches rest := by
  refine ⟨?_, ?_, ?_, ?_⟩
  · by_cases h : m.distance < 7 / 10 * n.distance
    · simp [goodMatches, h]
    · simp [goodMatches, h]
  · have h : (69 : ℚ) / 100 * d < 7 / 10 * d := by linarith
    simp [goodMatches, h]
  · have h : ¬ ((71 : ℚ) / 100 * d < 7 / 10 * d) := by
      intro hc; linarith
    simp [goodMatches, h]
  · rcases ms with _ | ⟨a, _ | ⟨b, tl⟩⟩
    · simp [goodMatches]
    · simp [goodMatches]
    · simp at hlt
      omega

/-- Closed instance of `C5_ratio_test`, discharging its hypotheses at
`d = 1` and the empty neighbour list. -/
theorem C5_witness :
    ((⟨0, 0, 1⟩ : KMatch) ∈ goodMatches [[⟨0, 0, 1⟩, ⟨0, 0, 2⟩]] ↔
      (⟨0, 0, 1⟩ : KMatch).distance < 7 / 10 * (⟨0, 0, 2⟩ : KMatch).distance) ∧
    ((⟨0, 0, 69 / 100 * 1⟩ : KMatch) ∈
      goodMatches [[⟨0, 0, 69 / 100 * 1⟩, ⟨1, 1, 1⟩]]) ∧
    ((⟨0, 0, 71 / 100 * 1⟩ : KMatch) ∉
      goodMatches [[⟨0, 0, 71 / 100 * 1⟩, ⟨1, 1, 1⟩]]) ∧
    goodMatches ([] :: []) = goodMatches [] :=
  C5_ratio_test ⟨0, 0, 1⟩ ⟨0, 0, 2⟩ [] 1 (by norm_num) [] (by norm_num)

/-- C6: when either descriptor set is empty the candidate is skipped —
no match is attempted, nothing is raised, the candidate contributes no
detection and no counter change; a frame whose scene descriptors are
empty yields NotFound with unchanged counters over any reference list. -/
theorem C6_empty_descriptors (O : Oracles) (name : String) (scene : Scene)
    (coords : Option (ℚ × ℚ × ℚ × ℚ)) (cs : String → ℕ) (f : ImgFeature)
    (rest : List ImgFeature) (h : f.des = [] ∨ scene.des = []) :
    detectObject O name scene coords cs (f :: rest)
        = detectObject O name scene coords cs rest ∧
    (scene.des = [] → ∀ fs : List ImgFeature,
      detectObject O name scene coords cs fs = (.notFound, cs)) := by
  constructor
  · apply detectObject_cons_skip_empty
    rcases h with h | h <;> simp [h]
  · intro hs fs
    induction fs with
    | nil => rfl
    | cons g tl ih =>
      rw [detectObject_cons_skip_empty O name scene coords cs g tl (by simp [hs])]
      exact ih

/-- Closed instance of `C6_empty_descriptors` on a feature set and a
scene that both have no descriptors. -/
theorem C6_witness :
    (detectObject oracleFew "mug" sceneEmpty none (fun _ => 0) [featEmpty]
        = detectObject oracleFew "mug" sceneEmpty none (fun _ => 0) []) ∧
    (sceneEmpty.des = [] → ∀ fs : List ImgFeature,
      detectObject oracleFew "mug" sceneEmpty none (fun _ => 0) fs
        = (.notFound, fun _ => 0)) :=
  C6_empty_descriptors oracleFew "mug" sceneEmpty none (fun _ => 0) featEmpty []
    (Or.inl rfl)

/-- C7 counterexample: the non-negative, non-all-zero row `[1e-7]` has
row sum `1/2` after the L1 step, which is not within `eps` of 1 — the
claim fails for rows of tiny sum. -/
theorem C7_counterexample :
    (∀ x ∈ [(1 / 10 ^ 7 : ℚ)], 0 ≤ x) ∧ ([(1 / 10 ^ 7 : ℚ)].sum ≠ 0) ∧
    ¬ (|(rootsiftRowL1 [(1 / 10 ^ 7 : ℚ)]).sum - 1| ≤ eps) := by
  refine ⟨?_, ?_, ?_⟩
  · intro x hx
    rw [List.mem_singleton] at hx
    rw [hx]
    norm_num
  · norm_num
  · have h : (rootsiftRowL1 [(1 / 10 ^ 7 : ℚ)]).sum = 1 / 2 := by
      norm_num [rootsiftRowL1, eps]
    rw [h, show (1 : ℚ) / 2 - 1 = -(1 / 2) by norm_num, abs_neg,
      abs_of_nonneg (by norm_num : (0 : ℚ) ≤ 1 / 2), eps]
    norm_num

/-- C7 amended: for every row of a descriptor matrix with non-negative
entries and row sum at least `1 - eps`, the row sum after the L1 step is
within `eps` of 1 (and the transformed row is the corresponding row of
the transformed matrix). -/
theorem C7_amended (descs : List Desc) (row : List ℚ) (hmem : row ∈ descs)
    (hnn : ∀ x ∈ row, 0 ≤ x) (hsum : 1 - eps ≤ row.sum) :
    rootsiftRowL1 row ∈ rootsiftL1 descs ∧
    |(rootsiftRowL1 row).sum - 1| ≤ eps := by
  constructor
  · exact List.mem_map_of_mem rootsiftRowL1 hmem
  · have heps : (0 : ℚ) < eps := by norm_num [eps]
    have hpos : 0 < row.sum + eps := by linarith
    have hsum2 : (rootsiftRowL1 row).sum = row.sum / (row.sum + eps) := by
      rw [rootsiftRowL1, sum_map_div]
    rw [hsum2]
    have h1 : row.sum / (row.sum + eps) ≤ 1 := by
      rw [div_le_one hpos]; linarith
    rw [abs_of_nonpos (by linarith), neg_sub]
    have h2 : 1 - eps ≤ row.sum / (row.sum + eps) := by
      rw [le_div_iff₀ hpos]
      nlinarith
    linarith

/-- Closed instance of `C7_amended` on the one-row matrix `[[1]]`. -/
theorem C7_witness :
    rootsiftRowL1 [1] ∈ rootsiftL1 [[1]] ∧
    |(rootsiftRowL1 [1]).sum - 1| ≤ eps :=
  C7_amended [[1]] [1] (by simp)
    (by intro x hx; rw [List.mem_singleton] at hx; rw [hx]; norm_num)
    (by norm_num [eps])

/-- C4: a localization is attempted for a `(class, reference image)`
pair only when the number of ratio-test survivors strictly exceeds
`min_points = 200` — otherwise the pair is skipped and the next
reference image is tried; and when the derived bounding box has width
`< 10`, height `< 10` or area `< 100`, the candidate is rejected as
NotFound and no further reference image of the class is tried (the
result does not depend on the remaining reference images). -/
theorem C4_threshold_and_size (O : Oracles) (name : String) (scene : Scene)
    (coords : Option (ℚ × ℚ × ℚ × ℚ)) (cs : String → ℕ) (f : ImgFeature)
    (rest : List ImgFeature) :
    ((goodMatches (O.knnMatch f.des scene.des)).length ≤ min_points →
      detectObject O name scene coords cs (f :: rest)
        = detectObject O name scene coords cs rest) ∧
    (∀ (M : Pt → Pt) (x y w h : ℤ),
      0 < f.des.length → 0 < scene.des.length →
      (goodMatches (O.knnMatch f.des scene.des)).length > min_points →
      O.findHomography (srcPts f (goodMatches (O.knnMatch f.des scene.des)))
          (dstPts scene (goodMatches (O.knnMatch f.des scene.des))) = some M →
      extractRectangle (projectPoly M
          (templatePts (templateHW f coords).1 (templateHW f coords).2))
        = (x, y, w, h) →
      (w < min_object_width ∨ h < min_object_height ∨
        w * h < min_object_area) →
      detectObject O name scene coords cs (f :: rest)
        = (.notFound, bumpCounter cs name)) := by
  constructor
  · intro h
    exact detectObject_cons_skip O name scene coords cs f rest h
  · intro M x y w h h1 h2 h3 hfh hext hbad
    rw [detectObject_cons_some O name scene coords cs f rest M ⟨h1, h2⟩ h3 hfh]
    dsimp only
    rw [hext]
    dsimp only
    rw [if_pos hbad]

/-- Closed instance of `C4_threshold_and_size`: with no ratio-test
survivors the candidate is skipped; with 201 survivors, an identity
homography and a 5×5 template, the 4×4 box is size-rejected and the
remaining reference image (which would have matched) is never tried. -/
theorem C4_witness :
    (detectObject oracleFew "mug" scene1 none (fun _ => 0) [featBig]
      = detectObject oracleFew "mug" scene1 none (fun _ => 0) []) ∧
    detectObject oracle201 "mug" scene1 none (fun _ => 0) [featSmall, featBig]
      = (.notFound, bumpCounter (fun _ => 0) "mug") := by
  constructor
  · exact (C4_threshold_and_size oracleFew "mug" scene1 none (fun _ => 0)
      featBig []).1 (by norm_num [oracleFew, goodMatches, min_points])
  · refine (C4_threshold_and_size oracle201 "mug" scene1 none (fun _ => 0)
      featSmall [featBig]).2 (fun p => p) 0 0 4 4 (by simp [featSmall])
      (by simp [scene1]) ?_ rfl ?_ (Or.inl (by norm_num [min_object_width]))
    · rw [show oracle201.knnMatch featSmall.des scene1.des
          = List.replicate 201 goodPair from rfl, good201, List.length_replicate]
      norm_num [min_points]
    · rw [show (templateHW featSmall none).1 = ((5 : ℕ) : ℚ) from rfl,
        show (templateHW featSmall none).2 = ((5 : ℕ) : ℚ) from rfl,
        proj_id_poly 4 ((5 : ℕ) : ℚ) (by norm_num), extract_square 4 (by norm_num)]

lemma detect_noHom (name : String) (cs : String → ℕ) :
    detectObject oracleNoHom name scene1 none cs [featBig]
      = (.err, bumpCounter cs name) := by
  refine detectObject_cons_none oracleNoHom name scene1 none cs featBig []
    (by constructor <;> simp [featBig, scene1]) ?_ rfl
  rw [show oracleNoHom.knnMatch featBig.des scene1.des
      = List.replicate 201 goodPair from rfl, good201, List.length_replicate]
  norm_num [min_points]

lemma loop_stMug : fromImageLoop oracle201 scene1 (fun _ => [featBig]) ["mug"]
    ["mug"] (fun _ => 0) [] = (bumpCounter (fun _ => 0) "mug", .error ()) := by
  simp only [fromImageLoop]
  rw [detect_big]
  dsimp only
  rw [show pyFirst "mug" = "m" from by decide]
  rw [if_neg (by decide : ¬ ("m" ∈ ["mug"]))]

lemma loop_noHom : fromImageLoop oracleNoHom scene1 (fun _ => [featBig]) ["mug"]
    ["mug"] (fun _ => 0) [] = (bumpCounter (fun _ => 0) "mug", .error ()) := by
  simp only [fromImageLoop]
  rw [detect_noHom]

lemma loop_stMugM : fromImageLoop oracle201 scene1 featsMugM ["mug", "m"]
    ["mug", "m"] (fun _ => 0) []
      = (bumpCounter (fun _ => 0) "mug", .ok [("m", [(0, 0, 99, 99)])]) := by
  simp only [fromImageLoop]
  rw [show featsMugM "mug" = [featBig] from by simp [featsMugM]]
  rw [detect_big]
  dsimp only
  rw [show pyFirst "mug" = "m" from by decide]
  rw [if_pos (by decide : ("m" ∈ ["mug", "m"]))]
  rw [show featsMugM "m" = [] from by simp [featsMugM]]
  simp only [detectObject]
  norm_num [addDetection]

lemma addDetection_keys (m : List (String × List Box)) (k : String) (b : Box)
    (k2 : String) (bs2 : List Box) (h : (k2, bs2) ∈ addDetection m k b) :
    k2 = k ∨ ∃ bs0, (k2, bs0) ∈ m := by
  unfold addDetection at h
  split at h
  · rcases List.mem_map.1 h with ⟨p, hp, hpe⟩
    by_cases hpk : p.1 = k
    · rw [if_pos hpk] at hpe
      rw [Prod.mk.injEq] at hpe
      exact Or.inl (hpe.1.symm.trans hpk)
    · rw [if_neg hpk] at hpe
      exact Or.inr ⟨bs2, hpe ▸ hp⟩
  · rcases List.mem_append.1 h with h2 | h2
    · exact Or.inr ⟨bs2, h2⟩
    · rw [List.mem_singleton, Prod.mk.injEq] at h2
      exact Or.inl h2.1

lemma fromImageLoop_keys (O : Oracles) (scene : Scene)
    (feats : String → List ImgFeature) (allObjects : List String) :
    ∀ (l : List String) (cs : String → ℕ) (acc : List (String × List Box))
      (m : List (String × List Box)),
      (∀ k bs, (k, bs) ∈ acc → k.data.length ≤ 1) →
      (fromImageLoop O scene feats allObjects l cs acc).2 = .ok m →
      ∀ k bs, (k, bs) ∈ m → k.data.length ≤ 1 := by
  intro l
  induction l with
  | nil =>
    intro cs acc m hacc hok k bs hmem
    simp only [fromImageLoop] at hok
    cases hok
    exact hacc k bs hmem
  | cons obj rest ih =>
    intro cs acc m hacc hok k bs hmem
    simp only [fromImageLoop] at hok
    split at hok
    · exact absurd hok (by simp)
    · exact ih _ _ _ hacc hok k bs hmem
    · split at hok
      · refine ih _ _ _ ?_ hok k bs hmem
        intro k2 bs2 hk2
        rcases addDetection_keys _ _ _ _ _ hk2 with he | ⟨bs0, hbs0⟩
        · subst he
          show (String.mk (obj.data.take 1)).data.length ≤ 1
          simp [List.length_take]
        · exact hacc k2 bs0 hbs0
      · exact absurd hok (by simp)

/-- C2 counterexample: a candidate that passes the correspondence-count
threshold but is then size-rejected returns no `(polygon, bounding_box)`
— yet the class counter is still incremented from 0 to 1, refuting
"an increment happens only if a localization succeeds". -/
theorem C2_counterexample :
    (detectObject oracle201 "mug" scene1 none (fun _ => 0) [featSmall]).1
        = .notFound ∧
    (detectObject oracle201 "mug" scene1 none (fun _ => 0) [featSmall]).2 "mug"
        = 1 := by
  rw [detect_small]
  exact ⟨rfl, by simp [bumpCounter]⟩

/-- C2 amended: whenever the candidate reference image at the head of
the loop passes the correspondence-count threshold (with non-empty
descriptors), the class counter is set to exactly its old value plus
one — whatever happens afterwards: size rejection, homography-failure
abort, or success (first conjunct; `bumpCounter` adds exactly 1 to the
class and leaves every other counter unchanged).  Counters are never
decremented, other classes' counters are untouched, one call adds at
most 1, an accepted localization and likewise a homography-failure
abort each imply the counter rose by exactly 1, and across N frames
each producing an accepted detection of the class the counter grows by
exactly N. -/
theorem C2_amended (O : Oracles) (name : String) (scene : Scene)
    (coords : Option (ℚ × ℚ × ℚ × ℚ)) (cs : String → ℕ)
    (fs : List ImgFeature) :
    (∀ (f : ImgFeature) (rest : List ImgFeature),
      0 < f.des.length → 0 < scene.des.length →
      (goodMatches (O.knnMatch f.des scene.des)).length > min_points →
      (detectObject O name scene coords cs (f :: rest)).2
        = bumpCounter cs name) ∧
    (∀ c, cs c ≤ (detectObject O name scene coords cs fs).2 c) ∧
    (∀ c, c ≠ name → (detectObject O name scene coords cs fs).2 c = cs c) ∧
    ((detectObject O name scene coords cs fs).2 name ≤ cs name + 1) ∧
    (∀ p r, (detectObject O name scene coords cs fs).1 = .found p r →
      (detectObject O name scene coords cs fs).2 name = cs name + 1) ∧
    ((detectObject O name scene coords cs fs).1 = .err →
      (detectObject O name scene coords cs fs).2 name = cs name + 1) ∧
    (∀ scenes : List Scene,
      (∀ s ∈ scenes, ∃ p r,
        (detectObject O name s coords cs fs).1 = .found p r) →
      (scenes.foldl (fun cs2 s => (detectObject O name s coords cs2 fs).2) cs)
          name = cs name + scenes.length) := by
  refine ⟨?_, ?_, ?_, ?_, ?_, ?_, ?_⟩
  · intro f rest h1 h2 h3
    exact detectObject_pass_bump O name scene coords cs f rest h1 h2 h3
  · intro c
    rcases detectObject_counters_cases O name scene coords cs fs with h | h
    · rw [h]
    · rw [h]
      simp only [bumpCounter]
      split <;> omega
  · intro c hc
    rcases detectObject_counters_cases O name scene coords cs fs with h | h
    · rw [h]
    · rw [h]
      exact bumpCounter_other cs name c hc
  · rcases detectObject_counters_cases O name scene coords cs fs with h | h
    · rw [h]
      omega
    · rw [h, bumpCounter_self]
  · intro p r hf
    rw [detectObject_found_bump O name scene coords cs fs p r hf, bumpCounter_self]
  · intro he
    rw [detectObject_err_bump O name scene coords cs fs he, bumpCounter_self]
  · exact detect_foldl O name coords fs cs

/-- Closed instance of `C2_amended`: a threshold-passing candidate that
is size-rejected still sets the "mug" counter to exactly old + 1; a
homography-failure abort does too; one frame with one accepted "mug"
detection raises the counter from 0 to exactly 1; and an unrelated
class counter stays 0. -/
theorem C2_witness :
    ((detectObject oracle201 "mug" scene1 none (fun _ => 0) [featSmall]).2
      = bumpCounter (fun _ => 0) "mug") ∧
    ((detectObject oracleNoHom "mug" scene1 none (fun _ => 0) [featBig]).2 "mug"
      = (fun _ : String => (0 : ℕ)) "mug" + 1) ∧
    ((List.foldl (fun cs2 s => (detectObject oracle201 "mug" s none cs2
        [featBig]).2) (fun _ => 0) [scene1]) "mug"
      = (fun _ : String => (0 : ℕ)) "mug" + [scene1].length) ∧
    (detectObject oracle201 "mug" scene1 none (fun _ => 0) [featBig]).2 "cup"
      = (fun _ : String => (0 : ℕ)) "cup" := by
  refine ⟨?_, ?_, ?_, ?_⟩
  · refine (C2_amended oracle201 "mug" scene1 none (fun _ => 0) []).1
      featSmall [] (by simp [featSmall]) (by simp [scene1]) ?_
    rw [show oracle201.knnMatch featSmall.des scene1.des
        = List.replicate 201 goodPair from rfl, good201, List.length_replicate]
    norm_num [min_points]
  · refine (C2_amended oracleNoHom "mug" scene1 none (fun _ => 0)
      [featBig]).2.2.2.2.2.1 ?_
    rw [detect_noHom]
  · refine (C2_amended oracle201 "mug" scene1 none (fun _ => 0)
      [featBig]).2.2.2.2.2.2 [scene1] ?_
    intro s hs
    rw [List.mem_singleton] at hs
    subst hs
    exact ⟨[(0, 0), (0, 99), (99, 99), (99, 0)], (0, 0, 99, 99),
      by rw [detect_big]⟩
  · exact (C2_amended oracle201 "mug" scene1 none (fun _ => 0) [featBig]).2.2.1
      "cup" (by decide)

/-- C3: when homography estimation fails after the threshold passed, the
code does NOT return NotFound — `cv2.perspectiveTransform(pts, None)`
raises, the exception escapes `_detect_object` and aborts `from_image`
(with the counter already incremented).  The spec's NotFound contract is
the evident intent; the missing `M is None` check is a code bug. -/
theorem C3_hom_failure_raises :
    (detectObject oracleNoHom "mug" scene1 none (fun _ => 0) [featBig]).1
        = .err ∧
    (detectObject oracleNoHom "mug" scene1 none (fun _ => 0) [featBig]).1
        ≠ .notFound ∧
    (fromImage oracleNoHom stMug scene1).2 = .error () := by
  refine ⟨by rw [detect_noHom], by rw [detect_noHom]; simp, ?_⟩
  have h : (fromImage oracleNoHom stMug scene1).2
      = (fromImageLoop oracleNoHom scene1 (fun _ => [featBig]) ["mug"] ["mug"]
          (fun _ => 0) []).2 := rfl
  rw [h, loop_noHom]

/-- C1: detections are NOT recorded under the full class name:
`from_image` keys the box under `obj_features[0]`, the first character
of the class name.  For the single-class "mug" database whose reference
matches the scene, the box is filed under "m" and the subsequent
`object_counters[object_name]` lookup raises `KeyError`, so the call
aborts instead of returning `{"mug": [box]}` — a code bug (the counters
are keyed by full class names). -/
theorem C1_first_char_key :
    pyFirst "mug" = "m" ∧
    addDetection [] (pyFirst "mug") (0, 0, 99, 99) = [("m", [(0, 0, 99, 99)])] ∧
    "m" ∉ stMug.objects ∧
    (fromImage oracle201 stMug scene1).2 = .error () ∧
    (fromImage oracle201 stMug scene1).1.object_counters "mug" = 1 := by
  have h1 : pyFirst "mug" = "m" := by decide
  refine ⟨h1, ?_, by decide, ?_, ?_⟩
  · rw [h1]
    rfl
  · have h2 : (fromImage oracle201 stMug scene1).2
        = (fromImageLoop oracle201 scene1 (fun _ => [featBig]) ["mug"] ["mug"]
            (fun _ => 0) []).2 := rfl
    rw [h2, loop_stMug]
  · have h3 : (fromImage oracle201 stMug scene1).1.object_counters
        = (fromImageLoop oracle201 scene1 (fun _ => [featBig]) ["mug"] ["mug"]
            (fun _ => 0) []).1 := rfl
    rw [h3, loop_stMug]
    simp [bumpCounter]

/-- C10: one `from_image` call changes each class's counter by at most
one (and never decreases it): `_detect_object` leaves its loop right
after the branch containing the increment, and the orchestrator visits
each class key once. -/
theorem C10_at_most_one_per_frame (O : Oracles) (st : DetectorState)
    (scene : Scene) (hnd : st.objects.Nodup) (c : String) :
    st.object_counters c ≤ (fromImage O st scene).1.object_counters c ∧
    (fromImage O st scene).1.object_counters c ≤ st.object_counters c + 1 := by
  have h : (fromImage O st scene).1.object_counters
      = (fromImageLoop O scene st.object_features st.objects st.objects
          st.object_counters []).1 := rfl
  rw [h]
  exact fromImageLoop_le O scene st.object_features st.objects c st.objects
    st.object_counters [] hnd

/-- Closed instance of `C10_at_most_one_per_frame` on a frame whose one
threshold-passing candidate is size-rejected (counter goes 0 → 1). -/
theorem C10_witness :
    stMugSmall.object_counters "mug"
        ≤ (fromImage oracle201 stMugSmall scene1).1.object_counters "mug" ∧
    (fromImage oracle201 stMugSmall scene1).1.object_counters "mug"
        ≤ stMugSmall.object_counters "mug" + 1 :=
  C10_at_most_one_per_frame oracle201 stMugSmall scene1 (by simp [stMugSmall])
    "mug"

/-- C8 counterexample: a 500×2000 image has largest dimension 2000 >
1000, yet `_load_features` stores it unscaled, because the source tests
only `img.shape[0]` (the height) against 1000. -/
theorem C8_counterexample :
    (loadFeatureImg loadOracle "SIFT" ⟨500, 2000⟩).1 = ⟨500, 2000⟩ ∧
    1000 < max (⟨500, 2000⟩ : RawImg).h (⟨500, 2000⟩ : RawImg).w ∧
    loadOracle.resize03 ⟨500, 2000⟩ ≠ (⟨500, 2000⟩ : RawImg) :=
  ⟨rfl, by norm_num, by decide⟩

/-- C8 amended: a reference image is downscaled by the 0.3 factor iff
its HEIGHT (`shape[0]`) exceeds 1000 px; otherwise it is stored at its
original size. -/
theorem C8_amended (O : LoadOracles) (t : String) (img : RawImg)
    (hchg : O.resize03 img ≠ img) :
    ((loadFeatureImg O t img).1 ≠ img ↔ 1000 < img.h) ∧
    (1000 < img.h → (loadFeatureImg O t img).1 = O.resize03 img) ∧
    (img.h ≤ 1000 → (loadFeatureImg O t img).1 = img) := by
  have hfst : (loadFeatureImg O t img).1
      = if img.h > 1000 then O.resize03 img else img := by
    simp only [loadFeatureImg]
    split <;> split <;> rfl
  by_cases hh : 1000 < img.h
  · rw [hfst, if_pos hh]
    exact ⟨⟨fun _ => hh, fun _ => hchg⟩, fun _ => rfl,
      fun hle => absurd hh (by omega)⟩
  · rw [hfst, if_neg hh]
    exact ⟨⟨fun hne => absurd rfl hne, fun hlt => absurd hlt hh⟩,
      fun hlt => absurd hlt hh, fun _ => rfl⟩

/-- Closed instance of `C8_amended` on a 1500×10 image (downscaled,
since its height exceeds 1000). -/
theorem C8_witness :
    ((loadFeatureImg loadOracle "SIFT" ⟨1500, 10⟩).1 ≠ ⟨1500, 10⟩ ↔
      1000 < (⟨1500, 10⟩ : RawImg).h) ∧
    (1000 < (⟨1500, 10⟩ : RawImg).h →
      (loadFeatureImg loadOracle "SIFT" ⟨1500, 10⟩).1
        = loadOracle.resize03 ⟨1500, 10⟩) ∧
    ((⟨1500, 10⟩ : RawImg).h ≤ 1000 →
      (loadFeatureImg loadOracle "SIFT" ⟨1500, 10⟩).1 = ⟨1500, 10⟩) :=
  C8_amended loadOracle "SIFT" ⟨1500, 10⟩ (by decide)

/-- C9 counterexample: `os.listdir` also returns regular files, so a
file `readme.txt` directly under the database root becomes an object
class — the class list is not "exactly the subdirectory names minus
IGNORE". -/
theorem C9_counterexample :
    initObjects [⟨"mug", true⟩, ⟨"readme.txt", false⟩] = ["mug", "readme.txt"] ∧
    initObjects [⟨"mug", true⟩, ⟨"readme.txt", false⟩] ≠ ["mug"] :=
  ⟨rfl, by decide⟩

/-- C9 amended: the class identifiers are exactly the names of ALL
immediate entries of the database root (files included) except a
literal `IGNORE`; hence `IGNORE` is never a class (so never a counter
key), and no key of a returned detections map can be `IGNORE` (keys are
single-character strings). -/
theorem C9_amended (entries : List DirEntry) :
    (∀ s, s ∈ initObjects entries ↔
      (s ≠ "IGNORE" ∧ ∃ e ∈ entries, e.name = s)) ∧
    "IGNORE" ∉ initObjects entries ∧
    (∀ (O : Oracles) (st : DetectorState) (scene : Scene)
        (m : List (String × List Box)) (k : String) (bs : List Box),
      (fromImage O st scene).2 = .ok m → (k, bs) ∈ m → k ≠ "IGNORE") := by
  have hmem : ∀ s, s ∈ initObjects entries ↔
      (s ≠ "IGNORE" ∧ ∃ e ∈ entries, e.name = s) := by
    intro s
    simp only [initObjects, List.mem_map, List.mem_filter,
      decide_eq_true_eq]
    constructor
    · rintro ⟨e, ⟨he, hne⟩, rfl⟩
      exact ⟨hne, e, he, rfl⟩
    · rintro ⟨hs, e, he, rfl⟩
      exact ⟨e, ⟨he, hs⟩, rfl⟩
  refine ⟨hmem, fun h => ((hmem "IGNORE").1 h).1 rfl, ?_⟩
  intro O st scene m k bs hok hkm hkeq
  have hok2 : (fromImageLoop O scene st.object_features st.objects st.objects
      st.object_counters []).2 = .ok m := hok
  have hlen := fromImageLoop_keys O scene st.object_features st.objects
    st.objects st.object_counters [] m (by intro k2 bs2 h2; simp at h2)
    hok2 k bs hkm
  subst hkeq
  exact absurd hlen (by decide)

/-- Closed instance of `C9_amended`: the membership characterisation at
a one-entry database, and the detections-map key of a real detection
("m", from class "mug") differs from IGNORE. -/
theorem C9_witness :
    ("mug" ∈ initObjects [⟨"mug", true⟩] ↔
      ("mug" ≠ "IGNORE" ∧ ∃ e ∈ [(⟨"mug", true⟩ : DirEntry)],
        e.name = "mug")) ∧
    ("m" : String) ≠ "IGNORE" := by
  constructor
  · exact (C9_amended [⟨"mug", true⟩]).1 "mug"
  · refine (C9_amended []).2.2 oracle201 stMugM scene1
      [("m", [(0, 0, 99, 99)])] "m" [(0, 0, 99, 99)] ?_ (by simp)
    have h : (fromImage oracle201 stMugM scene1).2
        = (fromImageLoop oracle201 scene1 featsMugM ["mug", "m"] ["mug", "m"]
            (fun _ => 0) []).2 := rfl
    rw [h, loop_stMugM]

end DodoDetector
